import Mathlib

/-!
Shallow embedding of the esque build-pipeline orchestrator
(`scripts/builder/subcommands.py`) and proofs about its status
aggregation, stage contracts and auxiliary commands.

Python's `~` and `&` act on arbitrary-precision two's-complement
integers.  They are modelled here by the executable functions `pyNot`
and `pyAnd` on `Int`, certified below against Mathlib's `Int.lnot` and
`Int.land`.
-/

namespace Esque

/-- Bitwise set difference on `Nat`: bit i of the result is
`testBit m i && !(testBit n i)`, computed as `m ^^^ (m &&& n)`. -/
def natLdiff (m n : Nat) : Nat := m ^^^ (m &&& n)

/-- Python's unary `~` (bitwise complement) on two's-complement integers. -/
def pyNot : Int → Int
  | .ofNat m => .negSucc m
  | .negSucc m => .ofNat m

/-- Python's binary `&` (bitwise and) on two's-complement integers. -/
def pyAnd : Int → Int → Int
  | .ofNat m, .ofNat n => .ofNat (m &&& n)
  | .ofNat m, .negSucc n => .ofNat (natLdiff m n)
  | .negSucc m, .ofNat n => .ofNat (natLdiff n m)
  | .negSucc m, .negSucc n => .negSucc (m ||| n)

theorem natLdiff_eq (m n : Nat) : natLdiff m n = Nat.ldiff m n := by
  apply Nat.eq_of_testBit_eq
  intro i
  simp [natLdiff, Nat.testBit_ldiff, Nat.testBit_xor, Nat.testBit_land]
  cases m.testBit i <;> cases n.testBit i <;> rfl

theorem pyNot_eq_lnot (x : Int) : pyNot x = Int.lnot x := by
  cases x <;> rfl

theorem pyAnd_eq_land (x y : Int) : pyAnd x y = Int.land x y := by
  cases x <;> cases y <;> simp [pyAnd, Int.land, natLdiff_eq]

/-- Arithmetic characterisation of the Python complement: `~x = -(x+1)`. -/
theorem pyNot_arith (x : Int) : pyNot x = -(x + 1) := by
  cases x with
  | ofNat m =>
    rw [show pyNot (.ofNat m) = .negSucc m from rfl, Int.negSucc_eq, Int.ofNat_eq_natCast]
  | negSucc m =>
    rw [show pyNot (.negSucc m) = .ofNat m from rfl, Int.negSucc_eq, Int.ofNat_eq_natCast]
    omega

theorem neg_one_pyAnd (x : Int) : pyAnd (-1) x = x := by
  rw [show (-1 : Int) = Int.negSucc 0 from rfl]
  cases x with
  | ofNat n => simp [pyAnd, natLdiff]
  | negSucc n => simp [pyAnd]

/-- The configuration flags `build` and the stages read from the global
`config` module. -/
structure Config where
  DOCUMENTATION : Bool
  SHOULD_RUN : Bool
  NEVER_RUN : Bool
  MINIMAL_TOOLCHAIN : Bool
deriving DecidableEq

/-- Outcomes of the external collaborators consulted during one run:
the Workspace Builder's `fmt` result (`None` signals failure) and the
emulator process's own exit status (never inspected by the code). -/
structure Ext where
  fmtResult : Option Unit
  qemuExit : Int
deriving DecidableEq

/-- `initramfs()`: runs `tar`, always returns 0. -/
def initramfs : Int := 0

/-- `build_kernel()`: builds the kernel workspace, copies the binary,
always returns 0. -/
def build_kernel : Int := 0

/-- `build_boot()`: builds the bootloader workspace, copies the binary,
always returns 0. -/
def build_boot : Int := 0

/-- `strip()`: strips both staged binaries, always returns 0. -/
def strip : Int := 0

/-- `image()`: assembles the FAT32 disk image, always returns 0. -/
def image : Int := 0

/-- `build_docs()`: documents the kernel and every crate, always
returns 0. -/
def build_docs : Int := 0

/-- `format()`: unless the minimal toolchain is configured, runs
`cargo fmt` over the workspace and returns 1 when that reports no
result (`None`); otherwise returns 0. -/
def format (cfg : Config) (ext : Ext) : Int :=
  if !cfg.MINIMAL_TOOLCHAIN then
    if ext.fmtResult = none then 1 else 0
  else 0

/-- The seven remediation messages `run_qemu` emits when the never-run
guard is active. -/
def neverRunMessages : List String :=
  ["Not running due to either one of the following conditions being true",
   "\t 1) The --never-run flag was passed to the tool",
   "\t 2) In the given config, never-run was set to true",
   "Here is what you can do:",
   "\t 1) Pass the --disable-never-run flag to the tool",
   "\t 2) Remove the command line flag that you passed to the tool",
   "\t 3) Change the line in the configuration file"]

/-- Observable outcome of one `run_qemu()` call: the messages printed,
whether the emulator process was spawned, and the Python return value
(`none` models Python's `None`). -/
structure QemuOutcome where
  messages : List String
  launched : Bool
  result : Option Int
deriving DecidableEq

/-- `run_qemu()`: with the never-run guard active it prints the
remediation messages and returns 1 without launching anything; with the
guard inactive it launches the emulator (ignoring the emulator's exit
status `qemuExit`) and then falls off the end of the function, so the
Python return value is `None`. -/
def run_qemu (cfg : Config) (_qemuExit : Int) : QemuOutcome :=
  if cfg.NEVER_RUN then
    { messages := neverRunMessages, launched := false, result := some 1 }
  else
    { messages := [], launched := true, result := none }

/-- The loop body of `build`'s accumulation: `code = ~s & ~code`. -/
def update (s code : Int) : Int := pyAnd (pyNot s) (pyNot code)

/-- Python exceptions that can escape the modelled code. -/
inductive PyExc where
  | typeError
deriving DecidableEq

/-- `build()`: runs every stage unconditionally, folding each status
into `code` via `code = ~stage() & ~code`, then maps `code ∈ {-1, 0}`
to exit code 0 and anything else to 1.  When `SHOULD_RUN` is set and
the never-run guard is off, `run_qemu()` returns `None` and the
expression `~run_qemu()` raises `TypeError`. -/
def build (cfg : Config) (ext : Ext) : Except PyExc Int :=
  let code := initramfs
  let code := update (format cfg ext) code
  let code := update build_kernel code
  let code := update build_boot code
  let code := update strip code
  let code := update image code
  let code := if cfg.DOCUMENTATION then update build_docs code else code
  if cfg.SHOULD_RUN then
    match (run_qemu cfg ext.qemuExit).result with
    | some v =>
      let code := update v code
      Except.ok (if code = -1 ∨ code = 0 then 0 else 1)
    | none => Except.error PyExc.typeError
  else
    Except.ok (if code = -1 ∨ code = 0 then 0 else 1)

/-- Folding `build`'s loop body over a list of later stage statuses,
starting from an already-accumulated composite. -/
def aggFrom (code : Int) (rest : List Int) : Int :=
  rest.foldl (fun code s => update s code) code

/-- The composite status `build`'s accumulation computes on an
arbitrary stage-status sequence: initialised to the first status, then
`code = ~s & ~code` for every subsequent status `s`. -/
def aggregate : List Int → Int
  | [] => 0
  | first :: rest => aggFrom first rest

/-- Modelled from the spec: "maintain a running CompositeStatus.
Initialize it to the StatusCode of the first stage", then
`composite = bitwise_complement(s.statusCode) AND
bitwise_complement(composite)` for every subsequent stage `s`. -/
def specAggregate : List Int → Int
  | [] => 0
  | first :: rest =>
    rest.foldl (fun composite s => pyAnd (pyNot s) (pyNot composite)) first

/-- Modelled from the spec: "if composite equals −1 or 0, the pipeline
is OverallSuccess; any other composite value is OverallFailure". -/
def specExit (composite : Int) : Int :=
  if composite = -1 ∨ composite = 0 then 0 else 1

/-- The StatusCodes of the stages `build` executes, in order (the
run-emulator stage contributes its Python return value; `getD 0` is
only consulted when that value is `None`). -/
def stageCodes (cfg : Config) (ext : Ext) : List Int :=
  [initramfs, format cfg ext, build_kernel, build_boot, strip, image]
    ++ (if cfg.DOCUMENTATION then [build_docs] else [])
    ++ (if cfg.SHOULD_RUN then [((run_qemu cfg ext.qemuExit).result).getD 0] else [])

/-- Filesystem state relevant to `clean`: whether the `build/` and
`target/` directories exist, and their entries when they do. -/
structure FS where
  build : Option (List String)
  target : Option (List String)
deriving DecidableEq

/-- `clean()`: executes `shutil.rmtree("build")`,
`shutil.rmtree("target")`, `os.mkdir("build")` inside a single
`try` block whose `except` clause returns 0.  The first deletion that
raises (its directory being absent) aborts the remaining statements of
the block, and 0 is returned in every case. -/
def clean (fs : FS) : FS × Int :=
  match fs.build with
  | none => (fs, 0)
  | some _ =>
    match fs.target with
    | none => ({ fs with build := none }, 0)
    | some _ => ({ build := some [], target := none }, 0)

/-- Concrete configurations and collaborator outcomes used to
instantiate the theorems below. -/
def cfgShouldRun : Config :=
  { DOCUMENTATION := false, SHOULD_RUN := true, NEVER_RUN := false,
    MINIMAL_TOOLCHAIN := true }

def cfgGuarded : Config :=
  { DOCUMENTATION := false, SHOULD_RUN := true, NEVER_RUN := true,
    MINIMAL_TOOLCHAIN := true }

def extOk : Ext := { fmtResult := some (), qemuExit := 0 }

def fsNoTarget : FS := { build := some [], target := none }

def fsBoth : FS := { build := some [], target := some [] }

end Esque


namespace Esque

theorem update_zero (c : Int) : update 0 c = pyNot c := by
  show pyAnd (pyNot 0) (pyNot c) = pyNot c
  rw [show pyNot 0 = -1 from rfl]
  exact neg_one_pyAnd (pyNot c)

theorem pyNot_ne_of_ne (c : Int) (h0 : c ≠ 0) (h1 : c ≠ -1) :
    pyNot c ≠ 0 ∧ pyNot c ≠ -1 := by
  rw [pyNot_arith]
  omega

theorem aggFrom_all_zero (rest : List Int) (hall : ∀ x ∈ rest, x = 0) :
    ∀ c : Int, c = -1 ∨ c = 0 → aggFrom c rest = -1 ∨ aggFrom c rest = 0 := by
  induction rest with
  | nil =>
    intro c hc
    simpa [aggFrom] using hc
  | cons s t ih =>
    intro c hc
    have hs : s = 0 := hall s (List.mem_cons_self s t)
    have ht : ∀ x ∈ t, x = 0 := fun x hx => hall x (List.mem_cons_of_mem s hx)
    subst hs
    rw [show aggFrom c (0 :: t) = aggFrom (update 0 c) t from rfl]
    apply ih ht
    rcases hc with hc | hc <;> subst hc
    · right
      decide
    · left
      decide

theorem aggFrom_zero_stays_failed (l : List Int) (hall : ∀ x ∈ l, x = 0) :
    ∀ c : Int, c ≠ 0 → c ≠ -1 → aggFrom c l ≠ 0 ∧ aggFrom c l ≠ -1 := by
  induction l with
  | nil =>
    intro c h0 h1
    exact ⟨h0, h1⟩
  | cons s t ih =>
    intro c h0 h1
    have hs : s = 0 := hall s (List.mem_cons_self s t)
    have ht : ∀ x ∈ t, x = 0 := fun x hx => hall x (List.mem_cons_of_mem s hx)
    subst hs
    rw [show aggFrom c (0 :: t) = aggFrom (update 0 c) t from rfl, update_zero]
    have hne := pyNot_ne_of_ne c h0 h1
    exact ih ht (pyNot c) hne.1 hne.2

/-- C1: the composite is initialised to the first stage's StatusCode,
updated to `~s & ~composite` for every subsequent stage `s`, and after
the last stage `build` returns exit code 0 when the composite is −1 or
0 and exit code 1 otherwise.  The hypothesis restricts to runs in
which every stage actually produces a StatusCode (with the guard off,
`run_qemu` produces none and `build` raises instead, see
`build_raises_typeError_when_running`). -/
theorem build_follows_spec_aggregation (cfg : Config) (ext : Ext)
    (h : cfg.SHOULD_RUN = true → cfg.NEVER_RUN = true) :
    build cfg ext = Except.ok (specExit (specAggregate (stageCodes cfg ext))) := by
  obtain ⟨d, sr, nr, mt⟩ := cfg
  cases sr with
  | false =>
    cases d <;>
      simp [build, stageCodes, specAggregate, specExit, update, run_qemu,
        initramfs, build_kernel, build_boot, strip, image, build_docs]
  | true =>
    have hnr : nr = true := h rfl
    subst hnr
    cases d <;>
      simp [build, stageCodes, specAggregate, specExit, update, run_qemu,
        initramfs, build_kernel, build_boot, strip, image, build_docs]

theorem build_follows_spec_aggregation_witness :
    build cfgGuarded extOk =
      Except.ok (specExit (specAggregate (stageCodes cfgGuarded extOk))) :=
  build_follows_spec_aggregation cfgGuarded extOk (fun _ => rfl)

/-- C2: a stage-status sequence whose middle stage fails (StatusCode 1
at position 2 of 5) while the final two stages succeed, yet whose
composite is 0, which the exit mapping reports as OverallSuccess. -/
theorem middle_failure_masked_by_final_successes :
    ([0, 0, 1, 0, 0] : List Int).getD 2 0 = 1 ∧
    ([0, 0, 1, 0, 0] : List Int).getD 3 0 = 0 ∧
    ([0, 0, 1, 0, 0] : List Int).getD 4 0 = 0 ∧
    aggregate [0, 0, 1, 0, 0] = 0 ∧
    specExit (aggregate [0, 0, 1, 0, 0]) = 0 := by
  decide

/-- C3: with `SHOULD_RUN` set and the never-run guard off, `run_qemu()`
launches the emulator and returns `None`, so `build`'s expression
`~run_qemu() & ~code` raises `TypeError` instead of returning an exit
code. -/
theorem build_raises_typeError_when_running :
    build cfgShouldRun extOk = Except.error PyExc.typeError ∧
    (run_qemu cfgShouldRun extOk.qemuExit).launched = true ∧
    (run_qemu cfgShouldRun extOk.qemuExit).result = none :=
  ⟨rfl, rfl, rfl⟩

/-- C4: on a stage-status sequence of length ≥ 1 consisting entirely
of Success codes (0), the composite aggregation resolves to −1 or 0,
which the exit mapping reports as OverallSuccess. -/
theorem all_success_aggregate_in_success_set (l : List Int) (hne : l ≠ [])
    (hall : ∀ x ∈ l, x = 0) :
    (aggregate l = -1 ∨ aggregate l = 0) ∧ specExit (aggregate l) = 0 := by
  cases l with
  | nil => exact absurd rfl hne
  | cons first rest =>
    have hf : first = 0 := hall first (List.mem_cons_self first rest)
    subst hf
    have hmem : ∀ x ∈ rest, x = 0 := fun x hx => hall x (List.mem_cons_of_mem 0 hx)
    have hagg : aggregate (0 :: rest) = aggFrom 0 rest := rfl
    rw [hagg]
    have h := aggFrom_all_zero rest hmem 0 (Or.inr rfl)
    refine ⟨h, ?_⟩
    rcases h with h | h <;> rw [h] <;> decide

theorem all_success_aggregate_witness :
    (aggregate [0, 0, 0] = -1 ∨ aggregate [0, 0, 0] = 0) ∧
    specExit (aggregate [0, 0, 0]) = 0 :=
  all_success_aggregate_in_success_set [0, 0, 0] (by decide)
    (fun x hx => by simpa using hx)

/-- C5: with DOCUMENTATION off, SHOULD_RUN on and the never-run guard
on, the six main stages all return 0, the run-emulator stage returns
the Failure StatusCode 1 as the seventh and final stage, and yet
`build` returns exit code 0: the aggregation computes
`~1 & ~(-1) = 0`, absorbing the guard's failure. -/
theorem final_guard_failure_absorbed :
    build cfgGuarded extOk = Except.ok 0 ∧
    (run_qemu cfgGuarded extOk.qemuExit).result = some 1 ∧
    initramfs = 0 ∧ format cfgGuarded extOk = 0 ∧ build_kernel = 0 ∧
    build_boot = 0 ∧ strip = 0 ∧ image = 0 ∧
    update 1 (-1) = 0 :=
  ⟨rfl, rfl, rfl, rfl, rfl, rfl, rfl, rfl, rfl⟩

/-- C6: a Success stage (code 0) maps the composite `c` to its bitwise
complement `~c`; the failure-mapped composites (everything outside
{0, −1}) are closed under complement; hence once the composite leaves
{0, −1}, any run of subsequent Success stages leaves it outside
{0, −1}. -/
theorem success_update_complement_and_closure :
    (∀ c : Int, update 0 c = pyNot c) ∧
    (∀ c : Int, c ≠ 0 → c ≠ -1 → pyNot c ≠ 0 ∧ pyNot c ≠ -1) ∧
    (∀ (c : Int) (l : List Int), (∀ x ∈ l, x = 0) → c ≠ 0 → c ≠ -1 →
      aggFrom c l ≠ 0 ∧ aggFrom c l ≠ -1) :=
  ⟨update_zero, pyNot_ne_of_ne,
    fun c l hall h0 h1 => aggFrom_zero_stays_failed l hall c h0 h1⟩

theorem success_update_complement_witness :
    aggFrom (-2) [0, 0] ≠ 0 ∧ aggFrom (-2) [0, 0] ≠ -1 :=
  success_update_complement_and_closure.2.2 (-2) [0, 0]
    (fun x hx => by simpa using hx) (by decide) (by decide)

/-- C7: with the never-run guard inactive, `run_qemu()` launches the
emulator and then falls off the end of the function, so its Python
return value is `None` rather than a StatusCode in {0, 1}; with the
guard active it returns 1. -/
theorem run_qemu_launch_returns_no_status :
    (run_qemu cfgShouldRun 0).launched = true ∧
    (run_qemu cfgShouldRun 0).result = none ∧
    (run_qemu cfgGuarded 0).result = some 1 :=
  ⟨rfl, rfl, rfl⟩

/-- C8 counterexample: starting from a state where `build/` exists
(empty) and `target/` is absent, `clean` returns 0 but deletes
`build/` without recreating it — `rmtree("target")` raises, the
`except` clause returns 0, and `os.mkdir("build")` never runs — so the
staging directory does not exist (let alone exist empty) afterwards. -/
theorem clean_counterexample :
    (clean fsNoTarget).2 = 0 ∧ (clean fsNoTarget).1.build = none := by
  decide

/-- C8 amended: `clean` never fails — it returns 0 from every starting
state, and still 0 when invoked again on the resulting state — but the
staging directory `build/` exists and is empty after a call exactly
when both `build/` and `target/` existed at call time; in particular
when `target/` is absent, `build/` is left deleted. -/
theorem clean_amended_spec :
    (∀ fs : FS, (clean fs).2 = 0 ∧ (clean (clean fs).1).2 = 0) ∧
    (∀ fs : FS,
      (clean fs).1.build = some [] ↔ (fs.build ≠ none ∧ fs.target ≠ none)) := by
  constructor <;> intro fs <;> obtain ⟨b, t⟩ := fs <;> cases b <;> cases t <;>
    simp [clean]

theorem clean_amended_spec_witness :
    ((clean fsBoth).2 = 0 ∧ (clean (clean fsBoth).1).2 = 0) ∧
    ((clean fsBoth).1.build = some [] ↔
      (fsBoth.build ≠ none ∧ fsBoth.target ≠ none)) :=
  ⟨clean_amended_spec.1 fsBoth, clean_amended_spec.2 fsBoth⟩

/-- C9: with the never-run guard active, `run_qemu` prints the seven
remediation messages, spawns no emulator process and returns the
Failure StatusCode 1; with the guard inactive it launches the emulator
and its behaviour is independent of the emulator's own exit status,
which is never inspected. -/
theorem run_qemu_guard_behaviour :
    (∀ (cfg : Config) (e : Int), cfg.NEVER_RUN = true →
      run_qemu cfg e =
        { messages := neverRunMessages, launched := false, result := some 1 }) ∧
    (∀ (cfg : Config) (e : Int), cfg.NEVER_RUN = false →
      (run_qemu cfg e).launched = true ∧ (run_qemu cfg e).messages = [] ∧
      ∀ e2 : Int, run_qemu cfg e = run_qemu cfg e2) := by
  constructor
  · intro cfg e h
    simp [run_qemu, h]
  · intro cfg e h
    refine ⟨?_, ?_, ?_⟩ <;> simp [run_qemu, h]

theorem run_qemu_guard_behaviour_witness :
    run_qemu cfgGuarded 0 =
      { messages := neverRunMessages, launched := false, result := some 1 } :=
  run_qemu_guard_behaviour.1 cfgGuarded 0 rfl

/-- C10: the format-sources stage returns the Failure StatusCode 1
exactly when the minimal-toolchain mode is off and the Workspace
Builder's fmt operation reports no result; in every other case it
returns 0. -/
theorem format_failure_characterisation :
    (∀ (cfg : Config) (ext : Ext),
      format cfg ext = 1 ↔
        (cfg.MINIMAL_TOOLCHAIN = false ∧ ext.fmtResult = none)) ∧
    (∀ (cfg : Config) (ext : Ext),
      ¬(cfg.MINIMAL_TOOLCHAIN = false ∧ ext.fmtResult = none) →
        format cfg ext = 0) := by
  constructor
  · intro cfg ext
    obtain ⟨d, sr, nr, mt⟩ := cfg
    obtain ⟨fr, qe⟩ := ext
    cases mt <;> cases fr <;> simp [format]
  · intro cfg ext h
    obtain ⟨d, sr, nr, mt⟩ := cfg
    obtain ⟨fr, qe⟩ := ext
    cases mt with
    | false =>
      cases fr with
      | none => exact absurd ⟨rfl, rfl⟩ h
      | some u => rfl
    | true => rfl

theorem format_failure_characterisation_witness :
    format cfgShouldRun extOk = 0 :=
  format_failure_characterisation.2 cfgShouldRun extOk (by decide)

end Esque
